import Mathlib

/-!
Formal model of the GestiX Runner gesture pipeline.

The definitions below are shallow embeddings of the Python sources:
the thread-shared gesture mailbox, the per-hand geometric classifier,
the two-hand frame combiner, the temporal majority voter, and the
gesture-to-action lookup.  Timestamps are modelled as rationals and
landmark coordinates as reals.  The lock-guarded mutations of the
Python classes become pure state-passing functions; each read or
write happens atomically under the lock in the source, so a state
transition function per call is an exact sequential model.
-/

namespace Gestix

/-- Closed gesture vocabulary of the pipeline: the eight labels the
recognizer can produce plus the neutral label. -/
def GestureLabels : List String :=
  ["Fist", "Open", "Point1", "Gun", "ThumbUp", "Victory", "OK", "DualOpen", "None"]

/-! Shared mailbox of gestix_mediapipe2.py (class SharedState, with
Config.TRIGGER_COOLDOWN and Config.CONSUME_GESTURES). -/

namespace M2

/-- Config.TRIGGER_COOLDOWN = 0.12 seconds. -/
def TRIGGER_COOLDOWN : ℚ := 12 / 100

/-- Config.CONSUME_GESTURES: gestures cleared by the first read. -/
def CONSUME_GESTURES : List String :=
  ["Open", "Gun", "OK", "Victory", "ThumbUp", "DualOpen", "Point1"]

/-- Mailbox state: the fields guarded by the lock in SharedState
that the gesture calls touch. -/
structure SharedState where
  gesture : String
  gesture_ts : ℚ
deriving DecidableEq

/-- SharedState constructor: gesture starts as the neutral label with
timestamp 0.0. -/
def init : SharedState := { gesture := "None", gesture_ts := 0 }

/-- SharedState.set_gesture: a non-neutral label overwrites the pair
only when it differs from the stored one or the stored timestamp is at
least TRIGGER_COOLDOWN old; the neutral label is ignored. -/
def set_gesture (s : SharedState) (gesture : String) (now : ℚ) : SharedState :=
  if gesture ≠ "None" then
    if gesture ≠ s.gesture ∨ now - s.gesture_ts ≥ TRIGGER_COOLDOWN then
      { gesture := gesture, gesture_ts := now }
    else s
  else s

/-- SharedState.get_gesture: returns the stored label and clears it to
the neutral label when it belongs to CONSUME_GESTURES. -/
def get_gesture (s : SharedState) : String × SharedState :=
  if s.gesture ∈ CONSUME_GESTURES then
    (s.gesture, { s with gesture := "None" })
  else (s.gesture, s)

/-- State left behind by n consecutive get_gesture calls. -/
def getN : ℕ → SharedState → SharedState
  | 0, s => s
  | n + 1, s => getN n (get_gesture s).2

end M2

/-! Shared mailbox of erererere.py (class SharedState): writes are
unconditional and reads degrade to the neutral label "NONE" once the
last write is more than 0.6 seconds old. -/

namespace ER

/-- Staleness window used in erererere get_gesture: 0.6 seconds. -/
def STALENESS_WINDOW : ℚ := 6 / 10

/-- Mailbox state of the erererere variant. -/
structure SharedState where
  gesture : String
  last_update_ts : ℚ
deriving DecidableEq

/-- SharedState.set_gesture of erererere: stores the label and stamps
the write time unconditionally. -/
def set_gesture (_s : SharedState) (g : String) (now : ℚ) : SharedState :=
  { gesture := g, last_update_ts := now }

/-- SharedState.get_gesture of erererere: the stored label, demoted to
"NONE" when the last write is more than STALENESS_WINDOW old. -/
def get_gesture (s : SharedState) (now : ℚ) : String :=
  if now - s.last_update_ts > STALENESS_WINDOW then "NONE" else s.gesture

end ER

/-! Frame combiner: the two-hand merge inside
HandGestureRecognizer.recognize of gestix_mediapipe2.py.  An absent
hand keeps the default raw label "None" there, so the per-hand raw
labels fully describe a frame with 0, 1 or 2 hands. -/

/-- Frame-level label from the raw per-hand labels: DualOpen when both
hands read Open, otherwise the right-hand label when non-neutral,
otherwise the left-hand label. -/
def combineFrame (rawLeft rawRight : String) : String :=
  if rawLeft = "Open" ∧ rawRight = "Open" then "DualOpen"
  else if rawRight ≠ "None" then rawRight
  else rawLeft

/-! Temporal voter: the deque with maxlen K plus the majority pick in
HandGestureRecognizer.recognize.  The Python tie-break comes from the
iteration order of a set; the model below fixes the deterministic
tie-break that keeps the earliest maximal element, one admissible pure
choice (the Counter based variant in erererere resolves ties the same
way). -/

/-- Push one label into a deque of capacity K: append on the right,
evict from the left when the capacity is exceeded. -/
def pushWindow (K : ℕ) (w : List String) (g : String) : List String :=
  let w2 := w ++ [g]
  w2.drop (w2.length - K)

/-- Candidate update for the majority scan: keep the current best
unless the next label counts strictly higher in the window. -/
def voteStep (w : List String) (best g : String) : String :=
  if w.count best < w.count g then g else best

/-- Majority label of a window, neutral for an empty window. -/
def majorityVote (w : List String) : String :=
  match w with
  | [] => "None"
  | h :: t => (h :: t).foldl (voteStep (h :: t)) h

/-- Feed a label sequence through the voter with capacity K starting
from an empty window and return the final voted label. -/
def runVoter (K : ℕ) (inputs : List String) : String :=
  majorityVote (inputs.foldl (pushWindow K) [])

/-! Action resolver: Config.GESTURE_MAPPING of gestix_mediapipe2.py
(the table gestix_runner2.py imports) and the dictionary lookup with
default in Game.poll_gesture_action. -/

/-- Config.GESTURE_MAPPING as an association list with distinct keys. -/
def GESTURE_MAPPING : List (String × String) :=
  [("Fist", "START_GAME"), ("Open", "JUMP"), ("Point1", "PAUSE_TOGGLE"),
   ("Gun", "SHOOT"), ("ThumbUp", "RESTART"), ("Victory", "JUMP"),
   ("OK", "NONE"), ("DualOpen", "ULTI")]

/-- Dictionary lookup with default, as in GESTURE_MAPPING.get(g, d). -/
def mappingGet (g d : String) : String :=
  match GESTURE_MAPPING.find? (fun p => p.1 == g) with
  | some p => p.2
  | none => d

/-- Game.poll_gesture_action of gestix_runner2.py applied to a label
already read from the mailbox. -/
def poll_gesture_action (g : String) : String := mappingGet g "NONE"

/-! Reachable mailbox states: the initial state followed by any
interleaving of producer writes of pipeline labels and consumer
reads. -/

/-- States of the gestix_mediapipe2 mailbox reachable from
construction through set_gesture calls carrying vocabulary labels and
get_gesture calls. -/
inductive Reachable : M2.SharedState → Prop where
  | init : Reachable M2.init
  | set (s : M2.SharedState) (g : String) (now : ℚ) :
      Reachable s → g ∈ GestureLabels → Reachable (M2.set_gesture s g now)
  | get (s : M2.SharedState) : Reachable s → Reachable (M2.get_gesture s).2

/-! Geometric classifier of gestix_mediapipe2.py
(HandGestureRecognizer).  Landmarks are indexed points with real
coordinates; only the x and y components are read by the classifier. -/

/-- Normalized landmark point. -/
structure Pt where
  x : ℝ
  y : ℝ

/-- Landmark set of one detected hand, indexed the MediaPipe way
(wrist 0, thumb tip 4, index tip 8, middle knuckle 9, and so on). -/
abbrev Hand := ℕ → Pt

/-- Planar distance, as math.hypot of the coordinate differences. -/
noncomputable def dist2d (a b : Pt) : ℝ :=
  Real.sqrt ((a.x - b.x) ^ 2 + (a.y - b.y) ^ 2)

open Classical in
/-- HandGestureRecognizer._get_finger_status: one 0/1 flag per digit,
thumb by the handedness-mirrored horizontal test against landmark 3,
the four fingers by tip strictly above the joint two indices below the
tip (tip_ids are 4, 8, 12, 16, 20). -/
noncomputable def get_finger_status (lms : Hand) (handedness : String) : List ℕ :=
  [if handedness = "Right"
     then (if (lms 4).x < (lms 3).x then 1 else 0)
     else (if (lms 4).x > (lms 3).x then 1 else 0),
   if (lms 8).y < (lms 6).y then 1 else 0,
   if (lms 12).y < (lms 10).y then 1 else 0,
   if (lms 16).y < (lms 14).y then 1 else 0,
   if (lms 20).y < (lms 18).y then 1 else 0]

/-- HandGestureRecognizer._is_gun on a finger-status list. -/
def is_gun (fingers : List ℕ) : Prop :=
  fingers.getD 1 0 = 1 ∧ fingers.getD 2 0 + fingers.getD 3 0 + fingers.getD 4 0 = 0

/-- HandGestureRecognizer._is_victory on a finger-status list. -/
def is_victory (fingers : List ℕ) : Prop :=
  fingers.getD 1 0 = 1 ∧ fingers.getD 2 0 = 1 ∧ fingers.getD 3 0 = 0 ∧ fingers.getD 4 0 = 0

/-- HandGestureRecognizer._is_point1 on a finger-status list. -/
def is_point1 (fingers : List ℕ) : Prop :=
  fingers.getD 1 0 = 1 ∧ fingers.getD 2 0 = 0 ∧ fingers.getD 3 0 = 0 ∧ fingers.getD 4 0 = 0

/-- HandGestureRecognizer._is_ok: thumb-tip to index-tip distance over
the wrist to middle-knuckle distance plus 1e-6 below 0.35, index
extended, and at most one of middle, ring, pinky extended. -/
def is_ok (lms : Hand) (handedness : String) : Prop :=
  let fingers := get_finger_status lms handedness
  dist2d (lms 4) (lms 8) / (dist2d (lms 0) (lms 9) + 1e-6) < 0.35 ∧
    fingers.getD 1 0 = 1 ∧ fingers.getD 2 0 + fingers.getD 3 0 + fingers.getD 4 0 ≤ 1

open Classical in
/-- HandGestureRecognizer._single_hand_gesture: the first-match-wins
cascade OK, Victory, Gun, Point1, ThumbUp, Fist, Open, else the
neutral label. -/
noncomputable def single_hand_gesture (lms : Hand) (handedness : String) : String :=
  let fingers := get_finger_status lms handedness
  if is_ok lms handedness then "OK"
  else if is_victory fingers then "Victory"
  else if is_gun fingers then "Gun"
  else if is_point1 fingers then "Point1"
  else if fingers = [1, 0, 0, 0, 0] then "ThumbUp"
  else if fingers = [0, 0, 0, 0, 0] then "Fist"
  else if fingers = [1, 1, 1, 1, 1] then "Open"
  else "None"

/-! Classifier written from the words of spec section 4.1 and of claim
C5, to be compared with the code classifier above.  The distance and
threshold values are the exact constants of the code, which the spec
gives only approximately. -/

/-- Spec wording: the thumb is extended when its tip x is less than
the proximal joint x on a Right hand, the opposite on a Left hand. -/
def thumbExtended (lms : Hand) (handedness : String) : Prop :=
  if handedness = "Right" then (lms 4).x < (lms 3).x else (lms 4).x > (lms 3).x

/-- Spec wording: index extended when the tip is above the proximal
joint on the vertical axis. -/
def indexExtended (lms : Hand) : Prop := (lms 8).y < (lms 6).y

/-- Spec wording: middle finger extension test. -/
def middleExtended (lms : Hand) : Prop := (lms 12).y < (lms 10).y

/-- Spec wording: ring finger extension test. -/
def ringExtended (lms : Hand) : Prop := (lms 16).y < (lms 14).y

/-- Spec wording: pinky extension test. -/
def pinkyExtended (lms : Hand) : Prop := (lms 20).y < (lms 18).y

open Classical in
/-- Number of extended fingers among middle, ring and pinky. -/
noncomputable def mrpExtendedCount (lms : Hand) : ℕ :=
  (if middleExtended lms then 1 else 0) + (if ringExtended lms then 1 else 0) +
    (if pinkyExtended lms then 1 else 0)

/-- Pinch/OK predicate as claim C5 states it: normalized thumb-index
distance below the threshold and at most one of middle, ring, pinky
extended, with no condition on the index finger. -/
def specPinchOK (lms : Hand) : Prop :=
  dist2d (lms 4) (lms 8) / (dist2d (lms 0) (lms 9) + 1e-6) < 0.35 ∧ mrpExtendedCount lms ≤ 1

/-- Victory predicate of spec section 4.1. -/
def specVictory (lms : Hand) : Prop :=
  indexExtended lms ∧ middleExtended lms ∧ ¬ringExtended lms ∧ ¬pinkyExtended lms

/-- Gun predicate of spec section 4.1: thumb state ignored. -/
def specGun (lms : Hand) : Prop :=
  indexExtended lms ∧ ¬middleExtended lms ∧ ¬ringExtended lms ∧ ¬pinkyExtended lms

/-- Point predicate of spec section 4.1: index extended only and thumb
not extended. -/
def specPoint (lms : Hand) (handedness : String) : Prop :=
  indexExtended lms ∧ ¬thumbExtended lms handedness ∧ ¬middleExtended lms ∧
    ¬ringExtended lms ∧ ¬pinkyExtended lms

/-- ThumbUp predicate of spec section 4.1. -/
def specThumbUp (lms : Hand) (handedness : String) : Prop :=
  thumbExtended lms handedness ∧ ¬indexExtended lms ∧ ¬middleExtended lms ∧
    ¬ringExtended lms ∧ ¬pinkyExtended lms

/-- Fist predicate of spec section 4.1: no digit extended. -/
def specFist (lms : Hand) (handedness : String) : Prop :=
  ¬thumbExtended lms handedness ∧ ¬indexExtended lms ∧ ¬middleExtended lms ∧
    ¬ringExtended lms ∧ ¬pinkyExtended lms

/-- Open predicate of spec section 4.1: all five digits extended. -/
def specOpen (lms : Hand) (handedness : String) : Prop :=
  thumbExtended lms handedness ∧ indexExtended lms ∧ middleExtended lms ∧
    ringExtended lms ∧ pinkyExtended lms

open Classical in
/-- Classifier cascade exactly as claim C5 words it, using the labels
of the code for the abstract spec labels. -/
noncomputable def specClassifier (lms : Hand) (handedness : String) : String :=
  if specPinchOK lms then "OK"
  else if specVictory lms then "Victory"
  else if specGun lms then "Gun"
  else if specPoint lms handedness then "Point1"
  else if specThumbUp lms handedness then "ThumbUp"
  else if specFist lms handedness then "Fist"
  else if specOpen lms handedness then "Open"
  else "None"

/-- Pinch/OK predicate amended to match the code: the index finger
must also be extended. -/
def specPinchOKAmended (lms : Hand) : Prop :=
  dist2d (lms 4) (lms 8) / (dist2d (lms 0) (lms 9) + 1e-6) < 0.35 ∧ indexExtended lms ∧
    mrpExtendedCount lms ≤ 1

open Classical in
/-- Classifier cascade of claim C5 with the amended Pinch/OK
predicate. -/
noncomputable def specClassifierAmended (lms : Hand) (handedness : String) : String :=
  if specPinchOKAmended lms then "OK"
  else if specVictory lms then "Victory"
  else if specGun lms then "Gun"
  else if specPoint lms handedness then "Point1"
  else if specThumbUp lms handedness then "ThumbUp"
  else if specFist lms handedness then "Fist"
  else if specOpen lms handedness then "Open"
  else "None"

/-- Concrete right-hand landmark set: every digit folded and the thumb
tip exactly on the index tip, so the pinch distance is zero while the
index finger is not extended. -/
noncomputable def cHand : Hand := fun i =>
  if i = 0 then ⟨1 / 2, 9 / 10⟩
  else if i = 3 then ⟨3 / 10, 7 / 10⟩
  else if i = 4 then ⟨2 / 5, 7 / 10⟩
  else if i = 6 then ⟨1 / 2, 3 / 5⟩
  else if i = 8 then ⟨2 / 5, 7 / 10⟩
  else if i = 9 then ⟨1 / 2, 1 / 2⟩
  else if i = 10 then ⟨1 / 2, 3 / 5⟩
  else if i = 12 then ⟨1 / 2, 7 / 10⟩
  else if i = 14 then ⟨1 / 2, 3 / 5⟩
  else if i = 16 then ⟨1 / 2, 7 / 10⟩
  else if i = 18 then ⟨1 / 2, 3 / 5⟩
  else if i = 20 then ⟨1 / 2, 7 / 10⟩
  else ⟨0, 0⟩

/-! Theorems settling the claims.  Helper lemmas come first. -/

/-- Helper: a get_gesture call on a state holding a consumable label
returns that label and clears the mailbox to the neutral label. -/
theorem get_gesture_consume (s : M2.SharedState) (h : s.gesture ∈ M2.CONSUME_GESTURES) :
    M2.get_gesture s = (s.gesture, { s with gesture := "None" }) := by
  simp [M2.get_gesture, h]

/-- Helper: a get_gesture call on a state holding a non-consumable
label returns that label and leaves the state untouched. -/
theorem get_gesture_keep (s : M2.SharedState) (h : s.gesture ∉ M2.CONSUME_GESTURES) :
    M2.get_gesture s = (s.gesture, s) := by
  simp [M2.get_gesture, h]

/-- C1: on the gestix_mediapipe2 mailbox, a stored consumable label is
returned by the first read and replaced by the neutral label, which
the second read then returns; a stored non-consumable label is
returned unchanged by arbitrarily many consecutive reads. -/
theorem c1_consume_on_read (s : M2.SharedState) (g : String) (h : s.gesture = g) :
    (g ∈ M2.CONSUME_GESTURES →
      (M2.get_gesture s).1 = g ∧ (M2.get_gesture (M2.get_gesture s).2).1 = "None") ∧
    (g ∉ M2.CONSUME_GESTURES →
      (M2.get_gesture s).1 = g ∧ (M2.get_gesture s).2 = s ∧
        ∀ n : ℕ, (M2.get_gesture (M2.getN n s)).1 = g) := by
  constructor
  · intro hc
    have hc2 : s.gesture ∈ M2.CONSUME_GESTURES := h ▸ hc
    rw [get_gesture_consume s hc2]
    refine ⟨h, ?_⟩
    rw [get_gesture_keep _ (by simp [M2.CONSUME_GESTURES])]
  · intro hc
    have hc2 : s.gesture ∉ M2.CONSUME_GESTURES := h ▸ hc
    have hfix : M2.get_gesture s = (s.gesture, s) := get_gesture_keep s hc2
    have hN : ∀ n : ℕ, M2.getN n s = s := by
      intro n
      induction n with
      | zero => rfl
      | succ k ih => simp [M2.getN, hfix, ih]
    refine ⟨by rw [hfix, h], by rw [hfix], ?_⟩
    intro n
    rw [hN n, hfix, h]

/-- Witness for C1 at concrete inputs: Open is consumed by the first
read, Fist persists across reads. -/
theorem c1_consume_on_read_witness :
    ((M2.get_gesture ⟨"Open", 0⟩).1 = "Open" ∧
      (M2.get_gesture (M2.get_gesture ⟨"Open", 0⟩).2).1 = "None") ∧
    ((M2.get_gesture ⟨"Fist", 0⟩).1 = "Fist" ∧ (M2.get_gesture ⟨"Fist", 0⟩).2 = ⟨"Fist", 0⟩ ∧
      ∀ n : ℕ, (M2.get_gesture (M2.getN n ⟨"Fist", 0⟩)).1 = "Fist") :=
  ⟨(c1_consume_on_read ⟨"Open", 0⟩ "Open" rfl).1 (by decide),
   (c1_consume_on_read ⟨"Fist", 0⟩ "Fist" rfl).2 (by decide)⟩

/-- C2: writing the neutral label to the gestix_mediapipe2 mailbox is
a no-op: both the stored label and the timestamp are unchanged, for
every prior state and write time. -/
theorem c2_set_neutral_noop (s : M2.SharedState) (now : ℚ) :
    (M2.set_gesture s "None" now).gesture = s.gesture ∧
      (M2.set_gesture s "None" now).gesture_ts = s.gesture_ts := by
  simp [M2.set_gesture]

/-- C3: a non-neutral write overwrites the mailbox pair with the new
label and the current time exactly when the label differs from the
stored one or the stored timestamp is at least TRIGGER_COOLDOWN old;
a repeated identical label inside the cooldown changes nothing, and a
differing label always lands immediately. -/
theorem c3_debounce (s : M2.SharedState) (g : String) (now : ℚ) (hg : g ≠ "None") :
    ((g ≠ s.gesture ∨ now - s.gesture_ts ≥ M2.TRIGGER_COOLDOWN) →
      M2.set_gesture s g now = ⟨g, now⟩) ∧
    (¬(g ≠ s.gesture ∨ now - s.gesture_ts ≥ M2.TRIGGER_COOLDOWN) →
      M2.set_gesture s g now = s) ∧
    (g = s.gesture → now - s.gesture_ts < M2.TRIGGER_COOLDOWN →
      M2.set_gesture s g now = s) ∧
    (g ≠ s.gesture → M2.set_gesture s g now = ⟨g, now⟩) := by
  refine ⟨?_, ?_, ?_, ?_⟩
  · intro hcond
    simp [M2.set_gesture, hg, hcond]
  · intro hcond
    simp [M2.set_gesture, hg, hcond]
  · intro he hlt
    have hcond : ¬(g ≠ s.gesture ∨ now - s.gesture_ts ≥ M2.TRIGGER_COOLDOWN) := by
      push_neg
      exact ⟨he, hlt⟩
    simp [M2.set_gesture, hg, hcond]
  · intro hne
    simp [M2.set_gesture, hg, hne]

/-- Witness for C3 at concrete inputs: a fresh label lands, and the
same label written again 0.1 seconds later is ignored. -/
theorem c3_debounce_witness :
    M2.set_gesture ⟨"None", 0⟩ "Open" 0 = ⟨"Open", 0⟩ ∧
      M2.set_gesture ⟨"Open", 0⟩ "Open" (1 / 10) = ⟨"Open", 0⟩ :=
  ⟨(c3_debounce ⟨"None", 0⟩ "Open" 0 (by decide)).1 (Or.inl (by decide)),
   (c3_debounce ⟨"Open", 0⟩ "Open" (1 / 10) (by decide)).2.2.1 rfl
     (by norm_num [M2.TRIGGER_COOLDOWN])⟩

/-- C4: on the erererere mailbox, a read issued more than the
staleness window after the last write returns the neutral label even
when the stored label is not neutral, and a read within the window of
a fresh write returns the written label again. -/
theorem c4_staleness :
    (∀ (s : ER.SharedState) (now : ℚ), now - s.last_update_ts > ER.STALENESS_WINDOW →
      ER.get_gesture s now = "NONE") ∧
    (∀ (s : ER.SharedState) (g : String) (t t2 : ℚ), t2 - t ≤ ER.STALENESS_WINDOW →
      ER.get_gesture (ER.set_gesture s g t) t2 = g) := by
  constructor
  · intro s now h
    simp [ER.get_gesture, h]
  · intro s g t t2 h
    simp [ER.get_gesture, ER.set_gesture, not_lt.mpr h]

/-- Witness for C4 at concrete inputs: a one-second-old Open reads as
NONE, and a fresh write of Open reads back as Open. -/
theorem c4_staleness_witness :
    ER.get_gesture ⟨"Open", 0⟩ 1 = "NONE" ∧
      ER.get_gesture (ER.set_gesture ⟨"NONE", 0⟩ "Open" 2) 2 = "Open" :=
  ⟨c4_staleness.1 ⟨"Open", 0⟩ 1 (by norm_num [ER.STALENESS_WINDOW]),
   c4_staleness.2 ⟨"NONE", 0⟩ "Open" 2 2 (by norm_num [ER.STALENESS_WINDOW])⟩

/-- C6: the frame combiner outputs DualOpen when both hands read Open,
otherwise the right-hand label when it is not neutral, otherwise the
left-hand label; in particular Right Fist with Left Open gives Fist. -/
theorem c6_frame_combiner :
    (∀ l r : String, l = "Open" → r = "Open" → combineFrame l r = "DualOpen") ∧
    (∀ l r : String, ¬(l = "Open" ∧ r = "Open") → r ≠ "None" → combineFrame l r = r) ∧
    (∀ l r : String, ¬(l = "Open" ∧ r = "Open") → r = "None" → combineFrame l r = l) ∧
    combineFrame "Open" "Fist" = "Fist" := by
  refine ⟨?_, ?_, ?_, by decide⟩
  · intro l r hl hr
    simp [combineFrame, hl, hr]
  · intro l r hb hr
    simp [combineFrame, hb, hr]
  · intro l r hb hr
    simp [combineFrame, hb, hr]

/-- Witness for C6 at concrete inputs: two Open hands give DualOpen,
right priority gives Fist over an Open left hand, and a lone left Gun
is reported when the right hand is neutral. -/
theorem c6_frame_combiner_witness :
    combineFrame "Open" "Open" = "DualOpen" ∧ combineFrame "Open" "Fist" = "Fist" ∧
      combineFrame "Gun" "None" = "Gun" :=
  ⟨c6_frame_combiner.1 "Open" "Open" rfl rfl,
   c6_frame_combiner.2.1 "Open" "Fist" (by decide) (by decide),
   c6_frame_combiner.2.2.1 "Gun" "None" (by decide) rfl⟩

/-- Helper: the majority scan over a list never lowers the count of
the running best and dominates the count of every scanned label. -/
theorem voteStep_foldl (w : List String) (l : List String) :
    ∀ b : String,
      (l.foldl (voteStep w) b = b ∨ l.foldl (voteStep w) b ∈ l) ∧
      w.count b ≤ w.count (l.foldl (voteStep w) b) ∧
      ∀ x ∈ l, w.count x ≤ w.count (l.foldl (voteStep w) b) := by
  induction l with
  | nil =>
    intro b
    exact ⟨Or.inl rfl, le_refl _, by simp⟩
  | cons g t ih =>
    intro b
    have hstep : w.count b ≤ w.count (voteStep w b g) ∧ w.count g ≤ w.count (voteStep w b g) ∧
        (voteStep w b g = b ∨ voteStep w b g = g) := by
      unfold voteStep
      split
      · next h => exact ⟨le_of_lt h, le_refl _, Or.inr rfl⟩
      · next h => exact ⟨le_refl _, le_of_not_lt h, Or.inl rfl⟩
    obtain ⟨hmem, hb, hall⟩ := ih (voteStep w b g)
    have hfold : (g :: t).foldl (voteStep w) b = t.foldl (voteStep w) (voteStep w b g) :=
      List.foldl_cons ..
    refine ⟨?_, le_trans hstep.1 (hfold ▸ hb), ?_⟩
    · rw [hfold]
      rcases hmem with hcase | hcase
      · rcases hstep.2.2 with h2 | h2
        · exact Or.inl (hcase.trans h2)
        · exact Or.inr (by rw [hcase, h2]; exact List.mem_cons_self g t)
      · exact Or.inr (List.mem_cons_of_mem _ hcase)
    · intro x hx
      rw [hfold]
      rcases List.mem_cons.mp hx with rfl | hx2
      · exact le_trans hstep.2.1 hb
      · exact hall x hx2

/-- C7: the voter window is a capacity-K deque (append right, evict
the oldest when full), the voted label after a push is an element of
the window with maximal count, the vote is a function of the window
contents alone, and with capacity 3 the sequences Open Open Fist and
Open Fist Fist vote Open and Fist respectively. -/
theorem c7_temporal_voter :
    (∀ (K : ℕ) (w : List String) (g : String), w.length < K → pushWindow K w g = w ++ [g]) ∧
    (∀ (K : ℕ) (w : List String) (g : String), 0 < K → w.length = K →
      pushWindow K w g = w.tail ++ [g]) ∧
    (∀ w : List String, w ≠ [] →
      majorityVote w ∈ w ∧ ∀ x ∈ w, w.count x ≤ w.count (majorityVote w)) ∧
    runVoter 3 ["Open", "Open", "Fist"] = "Open" ∧
    runVoter 3 ["Open", "Fist", "Fist"] = "Fist" := by
  refine ⟨?_, ?_, ?_, by decide, by decide⟩
  · intro K w g h
    have hlen : w.length + 1 - K = 0 := by omega
    simp [pushWindow, hlen]
  · intro K w g hK hlen
    cases w with
    | nil =>
      simp at hlen
      omega
    | cons h t =>
      simp only [List.length_cons] at hlen
      have hl : t.length + 1 + 1 - K = 1 := by omega
      simp [pushWindow, hl]
  · intro w hw
    cases w with
    | nil => exact absurd rfl hw
    | cons h t =>
      obtain ⟨hmem, _, hall⟩ := voteStep_foldl (h :: t) (h :: t) h
      have hvote : majorityVote (h :: t) = (h :: t).foldl (voteStep (h :: t)) h := rfl
      constructor
      · rw [hvote]
        rcases hmem with hcase | hcase
        · rw [hcase]; exact List.mem_cons_self h t
        · exact hcase
      · intro x hx
        rw [hvote]
        exact hall x hx

/-- Witness for C7 at concrete inputs: a push below capacity appends,
a push at capacity evicts the oldest entry, and the vote over a
concrete window is a member of maximal count. -/
theorem c7_temporal_voter_witness :
    pushWindow 3 ["Open", "Open"] "Fist" = ["Open", "Open"] ++ ["Fist"] ∧
    pushWindow 3 ["Open", "Open", "Fist"] "Fist" = ["Open", "Fist"] ++ ["Fist"] ∧
    (majorityVote ["Open", "Open", "Fist"] ∈ (["Open", "Open", "Fist"] : List String) ∧
      ∀ x ∈ (["Open", "Open", "Fist"] : List String),
        (["Open", "Open", "Fist"] : List String).count x ≤
          (["Open", "Open", "Fist"] : List String).count
            (majorityVote ["Open", "Open", "Fist"])) :=
  ⟨c7_temporal_voter.1 3 ["Open", "Open"] "Fist" (by decide),
   c7_temporal_voter.2.1 3 ["Open", "Open", "Fist"] "Fist" (by decide) (by decide),
   c7_temporal_voter.2.2.1 ["Open", "Open", "Fist"] (by decide)⟩

/-- C8: every mailbox state reachable from construction through
pipeline writes and reads stores a label of the closed enumeration,
and a read never returns a value outside the enumeration. -/
theorem c8_mailbox_invariant (s : M2.SharedState) (h : Reachable s) :
    s.gesture ∈ GestureLabels ∧ (M2.get_gesture s).1 ∈ GestureLabels := by
  have hmain : s.gesture ∈ GestureLabels := by
    induction h with
    | init => simp [M2.init, GestureLabels]
    | set s g now hr hg ih =>
      by_cases h1 : g = "None"
      · simp [M2.set_gesture, h1, ih]
      · by_cases h2 : g ≠ s.gesture ∨ now - s.gesture_ts ≥ M2.TRIGGER_COOLDOWN
        · simp [M2.set_gesture, h1, h2, hg]
        · simp [M2.set_gesture, h1, h2, ih]
    | get s hr ih =>
      by_cases hc : s.gesture ∈ M2.CONSUME_GESTURES
      · simp [M2.get_gesture, hc, GestureLabels]
      · simp [M2.get_gesture, hc, ih]
  refine ⟨hmain, ?_⟩
  by_cases hc : s.gesture ∈ M2.CONSUME_GESTURES
  · simpa [M2.get_gesture, hc] using hmain
  · simpa [M2.get_gesture, hc] using hmain

/-- Witness for C8 at the concrete reachable state left by writing
Open into the fresh mailbox. -/
theorem c8_mailbox_invariant_witness :
    (M2.set_gesture M2.init "Open" 1).gesture ∈ GestureLabels ∧
      (M2.get_gesture (M2.set_gesture M2.init "Open" 1)).1 ∈ GestureLabels :=
  c8_mailbox_invariant (M2.set_gesture M2.init "Open" 1)
    (Reachable.set M2.init "Open" 1 Reachable.init (by decide))

/-- C9: action resolution is the pure lookup with default: every key
of the table resolves to its mapped action and every label outside the
key set resolves to the sentinel NONE, with no failure case. -/
theorem c9_action_resolver :
    (∀ g a : String, (g, a) ∈ GESTURE_MAPPING → poll_gesture_action g = a) ∧
    (∀ g : String, g ∉ GESTURE_MAPPING.map Prod.fst → poll_gesture_action g = "NONE") := by
  constructor
  · intro g a h
    fin_cases h <;> rfl
  · intro g hg
    unfold poll_gesture_action mappingGet
    cases hfind : GESTURE_MAPPING.find? (fun p => p.1 == g) with
    | none => rfl
    | some p =>
      exfalso
      have hmem : p ∈ GESTURE_MAPPING := List.mem_of_find?_eq_some hfind
      have hp : p.1 = g := by simpa using List.find?_some hfind
      exact hg (List.mem_map.mpr ⟨p, hmem, hp⟩)

/-- Witness for C9 at concrete inputs: Gun resolves to SHOOT and an
unknown label resolves to NONE. -/
theorem c9_action_resolver_witness :
    poll_gesture_action "Gun" = "SHOOT" ∧ poll_gesture_action "Wave" = "NONE" :=
  ⟨c9_action_resolver.1 "Gun" "SHOOT" (by decide),
   c9_action_resolver.2 "Wave" (by decide)⟩

/-- C10: the shipped consume-on-read set is exactly the seven labels
Open, Gun, OK, Victory, ThumbUp, DualOpen, Point1; among the
vocabulary every non-neutral label except Fist is in it; a stored Fist
survives a read unchanged while a stored consumable label is returned
once and replaced by the neutral label. -/
theorem c10_consume_set :
    (∀ g : String, g ∈ M2.CONSUME_GESTURES ↔
      (g = "Open" ∨ g = "Gun" ∨ g = "OK" ∨ g = "Victory" ∨ g = "ThumbUp" ∨
        g = "DualOpen" ∨ g = "Point1")) ∧
    (∀ g : String, g ∈ GestureLabels → g ≠ "None" →
      (g ∈ M2.CONSUME_GESTURES ↔ g ≠ "Fist")) ∧
    (∀ s : M2.SharedState, s.gesture = "Fist" → M2.get_gesture s = ("Fist", s)) ∧
    (∀ s : M2.SharedState, s.gesture ∈ M2.CONSUME_GESTURES →
      (M2.get_gesture s).1 = s.gesture ∧ (M2.get_gesture s).2.gesture = "None") := by
  refine ⟨?_, ?_, ?_, ?_⟩
  · intro g
    simp [M2.CONSUME_GESTURES]
  · intro g hg
    fin_cases hg <;> decide
  · intro s hs
    have hc : s.gesture ∉ M2.CONSUME_GESTURES := by
      rw [hs]
      decide
    rw [get_gesture_keep s hc, hs]
  · intro s hs
    rw [get_gesture_consume s hs]
    exact ⟨rfl, rfl⟩

/-- Witness for C10 at concrete inputs: Open is consumable and differs
from Fist, a mailbox holding Fist is untouched by a read, and a
mailbox holding Open is cleared by a read. -/
theorem c10_consume_set_witness :
    ("Open" ∈ M2.CONSUME_GESTURES ↔ "Open" ≠ "Fist") ∧
    M2.get_gesture ⟨"Fist", 0⟩ = ("Fist", ⟨"Fist", 0⟩) ∧
    ((M2.get_gesture ⟨"Open", 0⟩).1 = "Open" ∧
      (M2.get_gesture ⟨"Open", 0⟩).2.gesture = "None") :=
  ⟨c10_consume_set.2.1 "Open" (by decide) (by decide),
   c10_consume_set.2.2.1 ⟨"Fist", 0⟩ rfl,
   c10_consume_set.2.2.2 ⟨"Open", 0⟩ (by decide)⟩

open Classical in
/-- Helper: the code finger-status list is the indicator list of the
five spec extension predicates. -/
theorem get_finger_status_eq (lms : Hand) (handedness : String) :
    get_finger_status lms handedness =
      [if thumbExtended lms handedness then 1 else 0,
       if indexExtended lms then 1 else 0,
       if middleExtended lms then 1 else 0,
       if ringExtended lms then 1 else 0,
       if pinkyExtended lms then 1 else 0] := by
  by_cases h : handedness = "Right" <;>
    simp [get_finger_status, thumbExtended, indexExtended, middleExtended, ringExtended,
      pinkyExtended, h]

/-- C5 (amended): the code classifier coincides on every hand with the
spec cascade in which the Pinch/OK predicate additionally requires the
index finger extended. -/
theorem c5_classifier_amended (lms : Hand) (handedness : String) :
    single_hand_gesture lms handedness = specClassifierAmended lms handedness := by
  have hf := get_finger_status_eq lms handedness
  by_cases ht : thumbExtended lms handedness <;>
  by_cases hi : indexExtended lms <;>
  by_cases hm : middleExtended lms <;>
  by_cases hr : ringExtended lms <;>
  by_cases hp : pinkyExtended lms <;>
  by_cases hd : dist2d (lms 4) (lms 8) / (dist2d (lms 0) (lms 9) + 1e-6) < 0.35 <;>
    simp [single_hand_gesture, specClassifierAmended, is_ok, is_victory, is_gun, is_point1,
      specPinchOKAmended, specVictory, specGun, specPoint, specThumbUp, specFist, specOpen,
      mrpExtendedCount, hf, ht, hi, hm, hr, hp, hd]

/-- Helper: on the counterexample hand all five digits are folded. -/
theorem cHand_fingers : get_finger_status cHand "Right" = [0, 0, 0, 0, 0] := by
  rw [get_finger_status]
  norm_num [cHand]

/-- Helper: on the counterexample hand the thumb tip sits exactly on
the index tip, so the pinch distance vanishes. -/
theorem cHand_pinch_dist : dist2d (cHand 4) (cHand 8) = 0 := by
  rw [dist2d]
  norm_num [cHand]

/-- C5 counterexample: on a fist-shaped right hand whose thumb tip
touches the index tip, the code classifier returns Fist while the
cascade worded exactly as claim C5 returns OK, because the code
Pinch/OK predicate also requires the index finger extended. -/
theorem c5_classifier_counterexample :
    single_hand_gesture cHand "Right" = "Fist" ∧ specClassifier cHand "Right" = "OK" ∧
      single_hand_gesture cHand "Right" ≠ specClassifier cHand "Right" := by
  have hok : ¬is_ok cHand "Right" := by
    rw [is_ok]
    simp [cHand_fingers]
  have hcode : single_hand_gesture cHand "Right" = "Fist" := by
    rw [single_hand_gesture]
    simp [hok, is_victory, is_gun, is_point1, cHand_fingers]
  have hspec : specClassifier cHand "Right" = "OK" := by
    have hokspec : specPinchOK cHand := by
      constructor
      · rw [cHand_pinch_dist, zero_div]
        norm_num
      · rw [mrpExtendedCount]
        have hm : ¬middleExtended cHand := by rw [middleExtended]; norm_num [cHand]
        have hr : ¬ringExtended cHand := by rw [ringExtended]; norm_num [cHand]
        have hp : ¬pinkyExtended cHand := by rw [pinkyExtended]; norm_num [cHand]
        simp [hm, hr, hp]
    rw [specClassifier]
    simp [hokspec]
  exact ⟨hcode, hspec, by rw [hcode, hspec]; decide⟩

end Gestix
